import Mathlib

/-!
Verification of the time-entry lifecycle of the Time-Tracking-App repository.

The development shallowly embeds the parts of the code that the properties
below speak about:

* the PostgreSQL trigger function calculate_time_entry_duration from
  supabase/migrations/20250830195344_....sql (both the BEFORE INSERT and the
  BEFORE UPDATE firing),
* the TimeTracker component (startTimer / stopTimer) from
  src/components/time-tracking/TimeTracker.tsx,
* the ManualTimeEntry component (duration-recalculation effect and
  handleSubmit) from the unnamed source file,
* the reporting aggregations from pages/Reports.tsx and
  components/dashboard/DashboardStats.tsx.

Modelling conventions, fixed once for the whole file:

* Instants are integers counting milliseconds since the epoch (the JS
  Date.getTime representation; timestamptz subtraction is modelled exactly on
  these integers).
* JS number arithmetic on durations is modelled exactly over the rationals.
  The relevant computations stay far away from the magnitudes where binary
  floating point rounding of IEEE doubles could change a rounded minute
  count, so the rational model is used as the semantics of the code.
* PL/pgSQL: EXTRACT(EPOCH FROM (a - b)) is the exact rational number of
  seconds of the interval; assigning a numeric value to the INTEGER column
  duration_minutes rounds to the nearest integer with ties away from zero
  (PostgreSQL numeric to int cast).  In the BEFORE INSERT firing of the
  trigger the OLD row does not exist (per the PostgreSQL documentation OLD
  is null for INSERT operations), so the comparison OLD.is_running = true
  is not true and the second IF of the trigger body never fires on insert.
* The NOT NULL column start_time makes the check NEW.start_time IS NOT NULL
  of the trigger always true; it is therefore dropped from the embedding.
-/

/-- Rounding of JS Math.round: nearest integer, ties toward positive
infinity. -/
def jsRound (q : ℚ) : ℤ := ⌊q + 1/2⌋

/-- Truncation toward zero of the JS abstract operation ToInteger, applied by
the Date constructor to a fractional time value. -/
def jsTrunc (q : ℚ) : ℤ := if 0 ≤ q then ⌊q⌋ else -⌊-q⌋

/-- Number.prototype.toFixed(2) followed by parseFloat: the value is replaced
by the closest multiple of 1/100, ties resolved toward the larger value
(the ECMA-262 specification of toFixed picks the larger candidate). -/
def toFixed2 (q : ℚ) : ℚ := (⌊q * 100 + 1/2⌋ : ℚ) / 100

/-- Cast of a PostgreSQL numeric value to the INTEGER column: round to the
nearest integer, ties away from zero. -/
def pgRound (q : ℚ) : ℤ := if 0 ≤ q then ⌊q + 1/2⌋ else -⌊-q + 1/2⌋

/-- EXTRACT(EPOCH FROM (end - start)) on two instants held in milliseconds:
the exact rational number of seconds. -/
def epochSeconds (startMs endMs : ℤ) : ℚ := ((endMs - startMs : ℤ) : ℚ) / 1000

/-- The value stored by the trigger into duration_minutes:
EXTRACT(EPOCH FROM (end - start)) / 60 assigned to an INTEGER column. -/
def durMinutes (startMs endMs : ℤ) : ℤ := pgRound (epochSeconds startMs endMs / 60)

/-- The enum time_entry_category; the source value break is a Lean keyword
and is rendered brk. -/
inductive Category where
  | work
  | study
  | brk
  | custom
deriving DecidableEq

/-- A row of the time_entries table (the columns the lifecycle touches). -/
structure TimeEntry where
  id : ℕ
  user_id : ℕ
  project_id : ℕ
  task_id : Option ℕ
  category : Category
  description : Option String
  start_time : ℤ
  end_time : Option ℤ
  duration_minutes : Option ℤ
  is_running : Bool
deriving DecidableEq

/-- First IF of calculate_time_entry_duration: when end_time is present
(start_time is a NOT NULL column), recompute duration_minutes and force
is_running to false. -/
def calcDurationFirstIf (new : TimeEntry) : TimeEntry :=
  match new.end_time with
  | some t => { new with duration_minutes := some (durMinutes new.start_time t),
                         is_running := false }
  | none => new

/-- The trigger calculate_time_entry_duration in its BEFORE INSERT firing.
OLD is null on INSERT, so OLD.is_running = true does not hold and the second
IF of the body is dead; only the first IF acts. -/
def calculate_time_entry_duration_insert (new : TimeEntry) : TimeEntry :=
  calcDurationFirstIf new

/-- The trigger calculate_time_entry_duration in its BEFORE UPDATE firing:
the first IF recomputes duration_minutes whenever end_time is set; the second
IF substitutes now() for a missing end_time when is_running transitions from
true to false, recomputing duration_minutes from it. -/
def calculate_time_entry_duration_update (nowMs : ℤ) (old new : TimeEntry) : TimeEntry :=
  let n1 := calcDurationFirstIf new
  if n1.is_running = false ∧ old.is_running = true ∧ n1.end_time = none then
    { n1 with end_time := some nowMs,
              duration_minutes := some (durMinutes n1.start_time nowMs) }
  else n1

/-- Update of one row of the store by id, every other row untouched (the
supabase update keyed by .eq(id)). -/
def updateById (db : List TimeEntry) (entryId : ℕ) (f : TimeEntry → TimeEntry) :
    List TimeEntry :=
  db.map (fun e => if e.id = entryId then f e else e)

/-- Local state of the TimeTracker component together with the store it
writes to. -/
structure TrackerState where
  db : List TimeEntry
  activeEntry : Option TimeEntry
  selectedProject : Option ℕ
  selectedTask : Option ℕ
  description : String
  elapsedTime : ℤ
deriving DecidableEq

/-- The row assembled by startTimer before insertion: start_time = now,
is_running = true, no end_time, no duration_minutes; category takes the
column default work. -/
def startEntry (uid newId : ℕ) (pid : ℕ) (task : Option ℕ) (desc : String)
    (nowMs : ℤ) : TimeEntry :=
  { id := newId
    user_id := uid
    project_id := pid
    task_id := task
    category := Category.work
    description := some desc
    start_time := nowMs
    end_time := none
    duration_minutes := none
    is_running := true }

/-- startTimer of TimeTracker.tsx: refuse without a selected project,
otherwise insert the running row (the BEFORE INSERT trigger fires) and make
the returned row the active entry. -/
def startTimer (uid newId : ℕ) (nowMs : ℤ) (s : TrackerState) : TrackerState :=
  match s.selectedProject with
  | none => s
  | some pid =>
    let inserted := calculate_time_entry_duration_insert
      (startEntry uid newId pid s.selectedTask s.description nowMs)
    { s with db := s.db ++ [inserted], activeEntry := some inserted }

/-- The column patch sent by stopTimer: is_running = false, end_time = now,
description from the component state. -/
def stopPatch (nowMs : ℤ) (desc : String) (e : TimeEntry) : TimeEntry :=
  { e with is_running := false, end_time := some nowMs, description := some desc }

/-- stopTimer of TimeTracker.tsx: a no-op without an active entry; otherwise
update the active row (the BEFORE UPDATE trigger fires) and clear the local
timer state. -/
def stopTimer (nowMs : ℤ) (s : TrackerState) : TrackerState :=
  match s.activeEntry with
  | none => s
  | some ae =>
    { s with
      db := updateById s.db ae.id
        (fun old => calculate_time_entry_duration_update nowMs old
          (stopPatch nowMs s.description old))
      activeEntry := none
      elapsedTime := 0
      description := "" }

/-- Entry mode of the ManualTimeEntry form. -/
inductive EntryMode where
  | timeRange
  | durationOnly
deriving DecidableEq

/-- Local state of the ManualTimeEntry form: the date input (midnight of the
chosen day, in ms), the two HH:MM time inputs (minutes since midnight) and
the duration field, a decimal string of hours; none models the empty or
unparseable string (parseFloat gives NaN). -/
structure ManualState where
  selectedProject : Option ℕ
  selectedTask : Option ℕ
  description : String
  dateMs : ℤ
  startMin : ℕ
  endMin : ℕ
  duration : Option ℚ
  entryMode : EntryMode
deriving DecidableEq

/-- The duration-recalculation effect of ManualTimeEntry: in time-range mode,
when end is strictly after start, the duration field is set to the hour
difference rendered with toFixed(2); otherwise the field keeps its previous
value. -/
def recalcDuration (s : ManualState) : ManualState :=
  if s.entryMode = EntryMode.timeRange ∧ s.startMin < s.endMin then
    { s with
      duration :=
        some (toFixed2 ((((s.endMin : ℤ) - (s.startMin : ℤ)) * 60000 : ℚ) / 3600000)) }
  else s

/-- Editing the end-time input reruns the recalculation effect. -/
def setEndTime (m : ℕ) (s : ManualState) : ManualState :=
  recalcDuration { s with endMin := m }

/-- Editing the start-time input reruns the recalculation effect. -/
def setStartTime (m : ℕ) (s : ManualState) : ManualState :=
  recalcDuration { s with startMin := m }

/-- The form state right after mount: start 09:00, end 10:00, empty duration
string, then the effect runs once. -/
def initialManualState (pid : Option ℕ) (dateMs : ℤ) : ManualState :=
  recalcDuration
    { selectedProject := pid
      selectedTask := none
      description := ""
      dateMs := dateMs
      startMin := 540
      endMin := 600
      duration := none
      entryMode := EntryMode.timeRange }

/-- handleSubmit of ManualTimeEntry: parse the duration field into minutes and
reject NaN or a non-positive value, else assemble start and end instants
(time-range mode takes both time inputs; duration mode starts at 09:00 and
adds the duration) and insert the closed row carrying the client-computed
Math.round of the minutes; the BEFORE INSERT trigger fires on the row.
Returns the persisted row, or none when the submission was rejected and
nothing was inserted. -/
def handleSubmit (uid newId : ℕ) (s : ManualState) : Option TimeEntry :=
  match s.selectedProject with
  | none => none
  | some pid =>
    match s.duration with
    | none => none
    | some h =>
      let durationMinutes : ℚ := h * 60
      if durationMinutes ≤ 0 then none
      else
        let startDateTime : ℤ :=
          match s.entryMode with
          | EntryMode.timeRange => s.dateMs + (s.startMin : ℤ) * 60000
          | EntryMode.durationOnly => s.dateMs + 540 * 60000
        let endDateTime : ℤ :=
          match s.entryMode with
          | EntryMode.timeRange => s.dateMs + (s.endMin : ℤ) * 60000
          | EntryMode.durationOnly =>
              jsTrunc ((startDateTime : ℚ) + durationMinutes * 60 * 1000)
        some (calculate_time_entry_duration_insert
          { id := newId
            user_id := uid
            project_id := pid
            task_id := s.selectedTask
            category := Category.work
            description := some s.description
            start_time := startDateTime
            end_time := some endDateTime
            duration_minutes := some (jsRound durationMinutes)
            is_running := false })

/-- Composite client-side duration computation of the manual time-range path
as a function of the two instants: the recalculation effect renders the hour
difference with toFixed(2), handleSubmit multiplies the parsed value by 60
and applies Math.round. -/
def manualClientMinutes (startMs endMs : ℤ) : ℤ :=
  jsRound (toFixed2 (((endMs - startMs : ℤ) : ℚ) / 3600000) * 60)

/-- The lifecycle operations on the time_entries store: the two inserts
(startTimer and ManualTimeEntry), the stopTimer update and an edit touching
only description and category.  Every write goes through the trigger. -/
inductive Op where
  | start (newId uid pid : ℕ) (task : Option ℕ) (desc : String) (nowMs : ℤ)
  | stop (entryId : ℕ) (desc : String) (nowMs : ℤ)
  | manual (newId uid pid : ℕ) (task : Option ℕ) (desc : String)
      (startMs endMs : ℤ) (clientMin : ℤ)
  | edit (entryId : ℕ) (desc : Option String) (cat : Category) (nowMs : ℤ)

/-- The column patch of an edit restricted to description and category. -/
def editPatch (desc : Option String) (cat : Category) (e : TimeEntry) : TimeEntry :=
  { e with description := desc, category := cat }

/-- One lifecycle operation acting on the store, trigger included. -/
def applyOp (db : List TimeEntry) : Op → List TimeEntry
  | Op.start newId uid pid task desc nowMs =>
      db ++ [calculate_time_entry_duration_insert
        (startEntry uid newId pid task desc nowMs)]
  | Op.stop entryId desc nowMs =>
      updateById db entryId
        (fun old => calculate_time_entry_duration_update nowMs old
          (stopPatch nowMs desc old))
  | Op.manual newId uid pid task desc startMs endMs clientMin =>
      db ++ [calculate_time_entry_duration_insert
        { id := newId
          user_id := uid
          project_id := pid
          task_id := task
          category := Category.work
          description := some desc
          start_time := startMs
          end_time := some endMs
          duration_minutes := some clientMin
          is_running := false }]
  | Op.edit entryId desc cat nowMs =>
      updateById db entryId
        (fun old => calculate_time_entry_duration_update nowMs old
          (editPatch desc cat old))

/-- The store reached from the empty table by a sequence of lifecycle
operations. -/
def runOps (ops : List Op) : List TimeEntry :=
  ops.foldl applyOp []

/-- Invariant I1 for a single row: a running entry carries neither an end
instant nor a duration. -/
def RunningClean (e : TimeEntry) : Prop :=
  e.is_running = true → e.end_time = none ∧ e.duration_minutes = none

/-- loadTimeEntries of Reports.tsx: rows of the user inside the date range
whose duration_minutes is not null, optionally restricted to one project.
The descending start_time ordering of the query is dropped; every property
proved below is invariant under reordering. -/
def loadTimeEntries (uid : ℕ) (fromMs toMs : ℤ) (proj : Option ℕ)
    (db : List TimeEntry) : List TimeEntry :=
  db.filter (fun e =>
    (e.user_id == uid) && decide (fromMs ≤ e.start_time) &&
    decide (e.start_time ≤ toMs) && e.duration_minutes.isSome &&
    (match proj with
     | none => true
     | some p => e.project_id == p))

/-- getTotalHours of Reports.tsx: reduce over the loaded rows of
(duration_minutes or 0) / 60. -/
def getTotalHours (entries : List TimeEntry) : ℚ :=
  entries.foldl (fun total e => total + ((e.duration_minutes.getD 0 : ℤ) : ℚ) / 60) 0

/-- One row of the CSV export (string formatting of the fields dropped). -/
structure CsvRow where
  dateMs : ℤ
  project_id : ℕ
  task_id : Option ℕ
  durationHours : ℚ
  description : Option String
deriving DecidableEq

/-- exportToCsv of Reports.tsx: one row per loaded entry. -/
def exportRows (entries : List TimeEntry) : List CsvRow :=
  entries.map (fun e =>
    { dateMs := e.start_time
      project_id := e.project_id
      task_id := e.task_id
      durationHours := ((e.duration_minutes.getD 0 : ℤ) : ℚ) / 60
      description := e.description })

/-- The two dashboard queries of DashboardStats.tsx: rows of the user since
the cutoff instant whose duration_minutes is not null. -/
def dashboardEntries (uid : ℕ) (sinceMs : ℤ) (db : List TimeEntry) : List TimeEntry :=
  db.filter (fun e =>
    (e.user_id == uid) && decide (sinceMs ≤ e.start_time) && e.duration_minutes.isSome)

/-- todayHours and weekHours of loadStats: sum the minutes of the filtered
rows, then divide by 60. -/
def dashboardHours (uid : ℕ) (sinceMs : ℤ) (db : List TimeEntry) : ℚ :=
  ((((dashboardEntries uid sinceMs db).foldl
      (fun acc e => acc + e.duration_minutes.getD 0) 0 : ℤ) : ℚ)) / 60

/-- Number of running entries a user owns in the store. -/
def runningCount (db : List TimeEntry) (uid : ℕ) : ℕ :=
  (db.filter (fun e => (e.user_id == uid) && e.is_running)).length

/-- Rounding a quotient of integers half-up, written as one integer division:
for a positive denominator, the floor of a / b + 1/2 is (2a + b) div 2b. -/
lemma floor_add_half_div (a : ℤ) (b : ℕ) (hb : 0 < b) :
    ⌊(a : ℚ) / (b : ℚ) + 1/2⌋ = (2 * a + (b : ℤ)) / (2 * (b : ℤ)) := by
  have hbq : ((b : ℚ)) ≠ 0 := by positivity
  have h1 : (a : ℚ) / (b : ℚ) + 1/2 = ((2 * a + (b : ℤ) : ℤ) : ℚ) / ((2 * b : ℕ) : ℚ) := by
    push_cast
    field_simp
    ring
  rw [h1, Rat.floor_intCast_div_natCast]
  push_cast
  ring_nf

/-- On a difference that is a whole number of minutes, the composite client
computation of the manual time-range path produces exactly the trigger
value. -/
lemma manualClient_eq_durMinutes (s e m : ℤ) (hm : 0 ≤ m) (h : e - s = 60000 * m) :
    manualClientMinutes s e = durMinutes s e := by
  have hd0 : (0 : ℤ) ≤ e - s := by omega
  have hq0 : (0 : ℚ) ≤ ((e - s : ℤ) : ℚ) / 1000 / 60 := by
    have hc : (0 : ℚ) ≤ ((e - s : ℤ) : ℚ) := by exact_mod_cast hd0
    positivity
  have f1 : ⌊((e - s : ℤ) : ℚ) / 3600000 * 100 + 1/2⌋ = (2 * (e - s) + 36000) / 72000 := by
    have h1 : ((e - s : ℤ) : ℚ) / 3600000 * 100 + 1/2
        = ((e - s : ℤ) : ℚ) / ((36000 : ℕ) : ℚ) + 1/2 := by
      push_cast
      ring
    rw [h1, floor_add_half_div (e - s) 36000 (by norm_num)]
    push_cast
    omega
  have f2 : ∀ n : ℤ, ⌊(n : ℚ) / 100 * 60 + 1/2⌋ = (6 * n + 5) / 10 := by
    intro n
    have h1 : (n : ℚ) / 100 * 60 + 1/2 = ((3 * n : ℤ) : ℚ) / ((5 : ℕ) : ℚ) + 1/2 := by
      push_cast
      ring
    rw [h1, floor_add_half_div (3 * n) 5 (by norm_num)]
    push_cast
    omega
  have f3 : ⌊((e - s : ℤ) : ℚ) / 1000 / 60 + 1/2⌋ = (2 * (e - s) + 60000) / 120000 := by
    have h1 : ((e - s : ℤ) : ℚ) / 1000 / 60 + 1/2
        = ((e - s : ℤ) : ℚ) / ((60000 : ℕ) : ℚ) + 1/2 := by
      push_cast
      ring
    rw [h1, floor_add_half_div (e - s) 60000 (by norm_num)]
    push_cast
    omega
  simp only [manualClientMinutes, toFixed2, jsRound, durMinutes, epochSeconds, pgRound]
  rw [if_pos hq0, f1, f2, f3]
  omega

/-- C1: the value persisted for a row carrying an end instant is always the
trigger computation round((end - start) seconds / 60); the stop path stores
exactly that value (it sends no duration of its own); the client computation
of the manual time-range path coincides with the trigger value whenever the
difference is a whole number of minutes - which is every difference its HH:MM
inputs can produce - but not on arbitrary instant pairs. -/
theorem C1_amended (s e : ℤ) (ent old : TimeEntry) (nowMs : ℤ) (d : String)
    (hstart : ent.start_time = s) (hend : ent.end_time = some e) :
    (calculate_time_entry_duration_insert ent).duration_minutes = some (durMinutes s e)
    ∧ (calculate_time_entry_duration_update nowMs old (stopPatch nowMs d old)).duration_minutes
        = some (durMinutes old.start_time nowMs)
    ∧ (∀ m : ℤ, 0 ≤ m → e - s = 60000 * m → manualClientMinutes s e = durMinutes s e) := by
  refine ⟨?_, ?_, fun m hm h => manualClient_eq_durMinutes s e m hm h⟩
  · simp [calculate_time_entry_duration_insert, calcDurationFirstIf, hend, hstart]
  · simp [calculate_time_entry_duration_update, calcDurationFirstIf, stopPatch]

/-- C1 is false as a statement about all instant pairs with end after start:
at a difference of 20 seconds the manual-entry client computation yields one
minute while the trigger (and hence the stored value) yields zero. -/
theorem C1_counterexample :
    manualClientMinutes 0 20000 = 1 ∧ durMinutes 0 20000 = 0 ∧
    manualClientMinutes 0 20000 ≠ durMinutes 0 20000 := by
  refine ⟨?_, ?_, ?_⟩ <;>
    norm_num [manualClientMinutes, durMinutes, jsRound, toFixed2, pgRound, epochSeconds]

/-- C1 witness: the amended statement applied at a concrete one-minute row. -/
theorem C1_witness :
    (calculate_time_entry_duration_insert
      { id := 1, user_id := 1, project_id := 1, task_id := none,
        category := Category.work, description := some "", start_time := 0,
        end_time := some 60000, duration_minutes := some 1,
        is_running := false }).duration_minutes = some (durMinutes 0 60000)
    ∧ manualClientMinutes 0 60000 = durMinutes 0 60000 :=
  ⟨(C1_amended 0 60000
      { id := 1, user_id := 1, project_id := 1, task_id := none,
        category := Category.work, description := some "", start_time := 0,
        end_time := some 60000, duration_minutes := some 1, is_running := false }
      { id := 2, user_id := 1, project_id := 1, task_id := none,
        category := Category.work, description := none, start_time := 0,
        end_time := none, duration_minutes := none, is_running := true }
      0 "" rfl rfl).1,
   (C1_amended 0 60000
      { id := 1, user_id := 1, project_id := 1, task_id := none,
        category := Category.work, description := some "", start_time := 0,
        end_time := some 60000, duration_minutes := some 1, is_running := false }
      { id := 2, user_id := 1, project_id := 1, task_id := none,
        category := Category.work, description := none, start_time := 0,
        end_time := none, duration_minutes := none, is_running := true }
      0 "" rfl rfl).2.2 1 (by norm_num) (by norm_num)⟩

/-- C2: the claim fails on the code.  The duration field is only recalculated
while end is strictly after start, so after entering a valid range (09:00 to
10:00, duration 1.00) and then moving the end input before the start (08:00),
the stale positive duration passes the only validation handleSubmit performs,
and a row with end before start and trigger-computed duration_minutes = -60
is persisted; nothing rejects the range itself. -/
theorem C2_failing_input :
    (handleSubmit 1 7 (setEndTime 480 (initialManualState (some 3) 0))).map
      (fun e => (e.start_time, e.end_time, e.duration_minutes, e.is_running))
      = some (32400000, some 28800000, some (-60), false) := by
  norm_num [handleSubmit, setEndTime, initialManualState, recalcDuration, toFixed2,
    calculate_time_entry_duration_insert, calcDurationFirstIf, durMinutes,
    epochSeconds, pgRound, jsRound]

/-- C3: stop is idempotent.  The first stop clears the active entry of the
component, and stopTimer returns immediately when no entry is active, so a
second stop at any later instant leaves both the store and the component
state exactly as the first stop did; nothing is recomputed from the later
now. -/
theorem C3_stop_idempotent (t1 t2 : ℤ) (s : TrackerState) :
    stopTimer t2 (stopTimer t1 s) = stopTimer t1 s := by
  cases h : s.activeEntry with
  | none => simp [stopTimer, h]
  | some ae => simp [stopTimer, h]

/-- C4 is false on the code: stopping a running entry whose start instant
lies in the future of the stop instant is not rejected; the update goes
through and the trigger stores the negative rounded duration.  Here an entry
started at instant 60000 is stopped at instant 0: the persisted row has
is_running = false, end_time = 0 and duration_minutes = -1, where the claim
demanded the entry stay running with null end and duration. -/
theorem C4_counterexample :
    (stopTimer 0
      { db := [{ id := 5, user_id := 1, project_id := 1, task_id := none,
                 category := Category.work, description := none,
                 start_time := 60000, end_time := none,
                 duration_minutes := none, is_running := true }],
        activeEntry := some
          { id := 5, user_id := 1, project_id := 1, task_id := none,
            category := Category.work, description := none,
            start_time := 60000, end_time := none,
            duration_minutes := none, is_running := true },
        selectedProject := some 1, selectedTask := none,
        description := "", elapsedTime := 0 }).db
    = [{ id := 5, user_id := 1, project_id := 1, task_id := none,
         category := Category.work, description := some "",
         start_time := 60000, end_time := some 0,
         duration_minutes := some (-1), is_running := false }] := by
  norm_num [stopTimer, updateById, calculate_time_entry_duration_update,
    calcDurationFirstIf, stopPatch, durMinutes, epochSeconds, pgRound]

/-- C4 amended: the stop path never rejects.  For every entry and every stop
instant the update closes the row with end_time = now and duration_minutes =
round((now - start) seconds / 60), a value that is negative whenever the stop
instant precedes the start instant. -/
theorem C4_amended (old : TimeEntry) (nowMs : ℤ) (d : String) :
    (calculate_time_entry_duration_update nowMs old (stopPatch nowMs d old)).is_running = false
    ∧ (calculate_time_entry_duration_update nowMs old (stopPatch nowMs d old)).end_time
        = some nowMs
    ∧ (calculate_time_entry_duration_update nowMs old (stopPatch nowMs d old)).duration_minutes
        = some (durMinutes old.start_time nowMs) := by
  simp [calculate_time_entry_duration_update, calcDurationFirstIf, stopPatch]

/-- C5: closing a running entry by merely setting is_running to false makes
the trigger substitute now() as the end instant and compute the duration from
it by the standard formula, and the resulting row is identical - not merely
within a minute - to the row produced by an explicit stop supplying
end = now at the same instant. -/
theorem C5_implicit_close (old : TimeEntry) (nowMs : ℤ)
    (hrun : old.is_running = true) (hend : old.end_time = none) :
    calculate_time_entry_duration_update nowMs old { old with is_running := false }
      = calculate_time_entry_duration_update nowMs old
          { old with is_running := false, end_time := some nowMs }
    ∧ (calculate_time_entry_duration_update nowMs old
        { old with is_running := false }).end_time = some nowMs
    ∧ (calculate_time_entry_duration_update nowMs old
        { old with is_running := false }).duration_minutes
        = some (durMinutes old.start_time nowMs) := by
  simp [calculate_time_entry_duration_update, calcDurationFirstIf, hrun, hend]

/-- C5 witness: the implicit close applied to a concrete running entry. -/
theorem C5_witness :
    calculate_time_entry_duration_update 90000
      { id := 9, user_id := 2, project_id := 4, task_id := none,
        category := Category.work, description := none, start_time := 30000,
        end_time := none, duration_minutes := none, is_running := true }
      { id := 9, user_id := 2, project_id := 4, task_id := none,
        category := Category.work, description := none, start_time := 30000,
        end_time := none, duration_minutes := none, is_running := false }
      = calculate_time_entry_duration_update 90000
          { id := 9, user_id := 2, project_id := 4, task_id := none,
            category := Category.work, description := none, start_time := 30000,
            end_time := none, duration_minutes := none, is_running := true }
          { id := 9, user_id := 2, project_id := 4, task_id := none,
            category := Category.work, description := none, start_time := 30000,
            end_time := some 90000, duration_minutes := none, is_running := false } :=
  (C5_implicit_close
    { id := 9, user_id := 2, project_id := 4, task_id := none,
      category := Category.work, description := none, start_time := 30000,
      end_time := none, duration_minutes := none, is_running := true }
    90000 rfl rfl).1

/-- Every lifecycle operation preserves invariant I1 row by row. -/
lemma runningClean_applyOp (db : List TimeEntry) (op : Op)
    (h : ∀ e ∈ db, RunningClean e) :
    ∀ e ∈ applyOp db op, RunningClean e := by
  cases op with
  | start newId uid pid task desc nowMs =>
    intro e he
    rcases List.mem_append.mp he with h1 | h1
    · exact h e h1
    · rw [List.mem_singleton] at h1
      subst h1
      intro _
      simp [calculate_time_entry_duration_insert, calcDurationFirstIf, startEntry]
  | stop entryId desc nowMs =>
    intro e' he'
    simp only [applyOp, updateById, List.mem_map] at he'
    obtain ⟨e, he, rfl⟩ := he'
    by_cases hid : e.id = entryId
    · simp [hid, RunningClean, calculate_time_entry_duration_update,
        calcDurationFirstIf, stopPatch]
    · simpa [hid] using h e he
  | manual newId uid pid task desc startMs endMs clientMin =>
    intro e he
    rcases List.mem_append.mp he with h1 | h1
    · exact h e h1
    · rw [List.mem_singleton] at h1
      subst h1
      simp [RunningClean, calculate_time_entry_duration_insert, calcDurationFirstIf]
  | edit entryId desc cat nowMs =>
    intro e' he'
    simp only [applyOp, updateById, List.mem_map] at he'
    obtain ⟨e, he, rfl⟩ := he'
    by_cases hid : e.id = entryId
    · rcases he2 : e.end_time with _ | t
      · cases hr : e.is_running
        · simp [hid, RunningClean, calculate_time_entry_duration_update,
            calcDurationFirstIf, editPatch, he2, hr]
        · have hclean := h e he hr
          simp [hid, RunningClean, calculate_time_entry_duration_update,
            calcDurationFirstIf, editPatch, he2, hr, hclean.2]
      · simp [hid, RunningClean, calculate_time_entry_duration_update,
          calcDurationFirstIf, editPatch, he2]
    · simpa [hid] using h e he

/-- I1 propagates along any sequence of lifecycle operations. -/
lemma runningClean_foldl (ops : List Op) :
    ∀ db, (∀ e ∈ db, RunningClean e) → ∀ e ∈ ops.foldl applyOp db, RunningClean e := by
  induction ops with
  | nil => intro db h; simpa using h
  | cons op rest ih =>
    intro db h
    exact ih _ (runningClean_applyOp db op h)

/-- C6: invariant I1 holds in every store reachable from the empty table by
the lifecycle operations: a running entry never carries an end instant or a
duration; no operation can produce a row that is simultaneously running and
closed. -/
theorem C6_I1_invariant (ops : List Op) (e : TimeEntry) (he : e ∈ runOps ops)
    (hrun : e.is_running = true) :
    e.end_time = none ∧ e.duration_minutes = none :=
  runningClean_foldl ops [] (by simp) e he hrun

/-- C6 witness: the invariant read off after one concrete start. -/
theorem C6_witness :
    (startEntry 1 1 1 none "" 0).end_time = none
    ∧ (startEntry 1 1 1 none "" 0).duration_minutes = none :=
  C6_I1_invariant [Op.start 1 1 1 none "" 0] (startEntry 1 1 1 none "" 0)
    (by simp [runOps, applyOp, calculate_time_entry_duration_insert,
      calcDurationFirstIf, startEntry])
    rfl

/-- C7 is false on the code: neither startTimer nor the schema checks for an
existing running entry; with the component believing no timer is active
(activeEntry = none, exactly the state of a stale or second client) while the
store already holds a running entry of user 1, pressing start succeeds and
leaves two running entries for that owner. -/
theorem C7_counterexample :
    runningCount
      (startTimer 1 2 5000
        { db := [{ id := 1, user_id := 1, project_id := 1, task_id := none,
                   category := Category.work, description := none, start_time := 0,
                   end_time := none, duration_minutes := none, is_running := true }],
          activeEntry := none, selectedProject := some 1, selectedTask := none,
          description := "", elapsedTime := 0 }).db 1 = 2 := by
  decide

/-- C7 amended: I4 is preserved only under the caller precondition the spec
itself states for start - the owner has no running entry (which the UI
approximates by hiding the start button while an active entry is loaded).
Under that precondition a start leaves the owner with at most one running
entry; the operation itself performs no check. -/
theorem C7_amended (uid newId : ℕ) (nowMs : ℤ) (s : TrackerState)
    (h0 : runningCount s.db uid = 0) :
    runningCount (startTimer uid newId nowMs s).db uid ≤ 1 := by
  cases hp : s.selectedProject with
  | none => simp [startTimer, hp, h0]
  | some pid =>
    have h1 := List.length_filter_le (fun e => (e.user_id == uid) && e.is_running)
      [calculate_time_entry_duration_insert
        (startEntry uid newId pid s.selectedTask s.description nowMs)]
    simp only [List.length_singleton] at h1
    simp only [runningCount] at h0 ⊢
    simp only [startTimer, hp, List.filter_append, List.length_append]
    omega

/-- C7 witness: a start from an empty store. -/
theorem C7_witness :
    runningCount
      (startTimer 1 2 0
        { db := [], activeEntry := none, selectedProject := some 1,
          selectedTask := none, description := "", elapsedTime := 0 }).db 1 ≤ 1 :=
  C7_amended 1 2 0
    { db := [], activeEntry := none, selectedProject := some 1,
      selectedTask := none, description := "", elapsedTime := 0 } rfl

/-- C8: with a project selected, start creates a row with start_time = now,
is_running = true, end_time = null, duration_minutes = null and the fresh id,
stores it, and makes exactly this row the returned active entry. -/
theorem C8_start (uid newId pid : ℕ) (nowMs : ℤ) (s : TrackerState)
    (hp : s.selectedProject = some pid) :
    (startTimer uid newId nowMs s).activeEntry
        = some (startEntry uid newId pid s.selectedTask s.description nowMs)
    ∧ (startEntry uid newId pid s.selectedTask s.description nowMs).start_time = nowMs
    ∧ (startEntry uid newId pid s.selectedTask s.description nowMs).is_running = true
    ∧ (startEntry uid newId pid s.selectedTask s.description nowMs).end_time = none
    ∧ (startEntry uid newId pid s.selectedTask s.description nowMs).duration_minutes = none
    ∧ (startEntry uid newId pid s.selectedTask s.description nowMs).id = newId
    ∧ startEntry uid newId pid s.selectedTask s.description nowMs
        ∈ (startTimer uid newId nowMs s).db := by
  refine ⟨?_, rfl, rfl, rfl, rfl, rfl, ?_⟩ <;>
    simp [startTimer, hp, calculate_time_entry_duration_insert, calcDurationFirstIf,
      startEntry]

/-- C8 witness: a concrete start. -/
theorem C8_witness :
    (startTimer 3 8 12345
      { db := [], activeEntry := none, selectedProject := some 2,
        selectedTask := none, description := "", elapsedTime := 0 }).activeEntry
      = some (startEntry 3 8 2 none "" 12345)
    ∧ (startEntry 3 8 2 none "" 12345).start_time = 12345 :=
  ⟨(C8_start 3 8 2 12345
      { db := [], activeEntry := none, selectedProject := some 2,
        selectedTask := none, description := "", elapsedTime := 0 } rfl).1,
   (C8_start 3 8 2 12345
      { db := [], activeEntry := none, selectedProject := some 2,
        selectedTask := none, description := "", elapsedTime := 0 } rfl).2.1⟩

/-- C9: an edit of a closed row that touches only description and category
leaves start_time, end_time, duration_minutes and is_running untouched: the
trigger recomputes the duration from the unchanged instants, reproducing the
stored value, and forces is_running to stay false; the edit lands in the
description and category columns alone. -/
theorem C9_edit_frame (e : TimeEntry) (t nowMs : ℤ) (d : Option String) (c : Category)
    (_hrun : e.is_running = false) (hend : e.end_time = some t)
    (hdur : e.duration_minutes = some (durMinutes e.start_time t)) :
    (calculate_time_entry_duration_update nowMs e (editPatch d c e)).start_time
        = e.start_time
    ∧ (calculate_time_entry_duration_update nowMs e (editPatch d c e)).end_time
        = e.end_time
    ∧ (calculate_time_entry_duration_update nowMs e (editPatch d c e)).duration_minutes
        = e.duration_minutes
    ∧ (calculate_time_entry_duration_update nowMs e (editPatch d c e)).is_running = false
    ∧ (calculate_time_entry_duration_update nowMs e (editPatch d c e)).description = d
    ∧ (calculate_time_entry_duration_update nowMs e (editPatch d c e)).category = c := by
  simp [calculate_time_entry_duration_update, calcDurationFirstIf, editPatch, hend, hdur]

/-- C9 witness: a concrete closed row edited. -/
theorem C9_witness :
    (calculate_time_entry_duration_update 999
      { id := 4, user_id := 1, project_id := 1, task_id := none,
        category := Category.work, description := some "", start_time := 0,
        end_time := some 60000, duration_minutes := some (durMinutes 0 60000),
        is_running := false }
      (editPatch (some "edited") Category.study
        { id := 4, user_id := 1, project_id := 1, task_id := none,
          category := Category.work, description := some "", start_time := 0,
          end_time := some 60000, duration_minutes := some (durMinutes 0 60000),
          is_running := false })).is_running = false :=
  (C9_edit_frame
    { id := 4, user_id := 1, project_id := 1, task_id := none,
      category := Category.work, description := some "", start_time := 0,
      end_time := some 60000, duration_minutes := some (durMinutes 0 60000),
      is_running := false }
    60000 999 (some "edited") Category.study rfl rfl rfl).2.2.2.1

/-- C10: every reporting aggregation ranges only over rows with a non-null
duration_minutes.  First conjunct: no loaded report row has a null duration,
hence no open entry appears in the CSV rows (which map one-to-one over the
loaded rows).  Remaining conjuncts: adding an open entry (null duration) to
the store changes neither the loaded report rows nor the dashboard rows, and
therefore neither the total hours, the per-project and per-day chart sums
computed from the loaded rows, the exported rows, nor the dashboard hour
totals: the open entry contributes exactly zero everywhere. -/
theorem C10_aggregations_closed_only :
    (∀ (uid : ℕ) (fromMs toMs : ℤ) (proj : Option ℕ) (db : List TimeEntry)
        (e : TimeEntry), e ∈ loadTimeEntries uid fromMs toMs proj db →
        e.duration_minutes ≠ none)
    ∧ (∀ (uid : ℕ) (fromMs toMs : ℤ) (proj : Option ℕ) (db : List TimeEntry)
        (x : TimeEntry), x.duration_minutes = none →
        loadTimeEntries uid fromMs toMs proj (x :: db)
          = loadTimeEntries uid fromMs toMs proj db)
    ∧ (∀ (uid : ℕ) (sinceMs : ℤ) (db : List TimeEntry) (x : TimeEntry),
        x.duration_minutes = none →
        dashboardEntries uid sinceMs (x :: db) = dashboardEntries uid sinceMs db
        ∧ dashboardHours uid sinceMs (x :: db) = dashboardHours uid sinceMs db)
    ∧ (∀ (uid : ℕ) (fromMs toMs : ℤ) (proj : Option ℕ) (db : List TimeEntry)
        (x : TimeEntry), x.duration_minutes = none →
        getTotalHours (loadTimeEntries uid fromMs toMs proj (x :: db))
          = getTotalHours (loadTimeEntries uid fromMs toMs proj db)
        ∧ exportRows (loadTimeEntries uid fromMs toMs proj (x :: db))
          = exportRows (loadTimeEntries uid fromMs toMs proj db)) := by
  have hload : ∀ (uid : ℕ) (fromMs toMs : ℤ) (proj : Option ℕ) (db : List TimeEntry)
      (x : TimeEntry), x.duration_minutes = none →
      loadTimeEntries uid fromMs toMs proj (x :: db)
        = loadTimeEntries uid fromMs toMs proj db := by
    intro uid fromMs toMs proj db x hx
    simp [loadTimeEntries, List.filter_cons, hx]
  refine ⟨?_, hload, ?_, ?_⟩
  · intro uid fromMs toMs proj db e he
    simp only [loadTimeEntries, List.mem_filter, Bool.and_eq_true] at he
    have hs : e.duration_minutes.isSome = true := he.2.1.2
    exact Option.ne_none_iff_isSome.mpr hs
  · intro uid sinceMs db x hx
    have hd : dashboardEntries uid sinceMs (x :: db) = dashboardEntries uid sinceMs db := by
      simp [dashboardEntries, List.filter_cons, hx]
    exact ⟨hd, by rw [dashboardHours, hd, dashboardHours]⟩
  · intro uid fromMs toMs proj db x hx
    rw [hload uid fromMs toMs proj db x hx]
    exact ⟨rfl, rfl⟩

/-- C10 witness: the statement applied to a concrete store holding one closed
and one open entry. -/
theorem C10_witness :
    ({ id := 1, user_id := 1, project_id := 1, task_id := none,
       category := Category.work, description := none, start_time := 5,
       end_time := some 65, duration_minutes := some 1,
       is_running := false } : TimeEntry).duration_minutes ≠ none
    ∧ loadTimeEntries 1 0 100 none
        ({ id := 2, user_id := 1, project_id := 1, task_id := none,
           category := Category.work, description := none, start_time := 6,
           end_time := none, duration_minutes := none, is_running := true }
          :: [{ id := 1, user_id := 1, project_id := 1, task_id := none,
                category := Category.work, description := none, start_time := 5,
                end_time := some 65, duration_minutes := some 1,
                is_running := false }])
        = loadTimeEntries 1 0 100 none
            [{ id := 1, user_id := 1, project_id := 1, task_id := none,
               category := Category.work, description := none, start_time := 5,
               end_time := some 65, duration_minutes := some 1,
               is_running := false }] :=
  ⟨C10_aggregations_closed_only.1 1 0 100 none
      [{ id := 1, user_id := 1, project_id := 1, task_id := none,
         category := Category.work, description := none, start_time := 5,
         end_time := some 65, duration_minutes := some 1, is_running := false }]
      { id := 1, user_id := 1, project_id := 1, task_id := none,
        category := Category.work, description := none, start_time := 5,
        end_time := some 65, duration_minutes := some 1, is_running := false }
      (by decide),
   C10_aggregations_closed_only.2.1 1 0 100 none
      [{ id := 1, user_id := 1, project_id := 1, task_id := none,
         category := Category.work, description := none, start_time := 5,
         end_time := some 65, duration_minutes := some 1, is_running := false }]
      { id := 2, user_id := 1, project_id := 1, task_id := none,
        category := Category.work, description := none, start_time := 6,
        end_time := none, duration_minutes := none, is_running := true }
      rfl⟩
